import Mathlib

/-
Shallow embedding of the item/source enumeration, deduplication, classification
and lifecycle layer of the xjs SDK (src/core/items/item.ts and
src/core/source/source.ts), together with proofs about the claims of spec.md.

The external collaborators (HostContext / Environment, VersionOracle / version
utilities, PropertyChannel / iItem, Scene) live outside src/ and are modelled
from the spec's interface contracts (spec.md section 6): they enter as fields of
an abstract `Host` record, and every host interaction an operation performs is
recorded in an explicit trace of `HostCall`s, in issue order.

JavaScript-semantics conventions used throughout:
- a possibly-`undefined` string value is `Option String` (`none` = `undefined`);
- a JS number is `Option Int` (`none` = `NaN`); `===` on numbers is `· == some ·`,
  which is `false` whenever one side is `NaN`, as in JS;
- string coercion of `undefined` (as performed by `RegExp.test`) yields the
  string "undefined";
- calling a method such as `.indexOf` on `undefined` throws a `TypeError`; a
  computation that can throw is `Option`-valued with `none` for the throw.
-/

/-- JS `ToString` coercion of a possibly-undefined string value
(`String(undefined) = "undefined"`), applied by `RegExp.test` and by property
keys computed from possibly-undefined values. -/
def jsToString : Option String → String
  | none => "undefined"
  | some s => s

/-- Decimal reading of a nonempty all-digit character list, `NaN` otherwise. -/
def parseDigits (acc : Nat) : List Char → Option Nat
  | [] => some acc
  | c :: rest =>
      if c.isDigit then parseDigits (acc * 10 + (c.toNat - '0'.toNat)) rest
      else none

/-- JS `Number(x)` for the values this code converts: `Number(undefined)` is
`NaN` (`none`), `Number('')` is `0`, a digit string is its value, and any other
string is `NaN`.  The host's `prop:type` values are the digit strings "0".."8",
for which this is exact. -/
def jsNumber : Option String → Option Int
  | none => none
  | some s =>
      match s.data with
      | [] => some 0
      | c :: rest => (parseDigits 0 (c :: rest)).map (fun n => (n : Int))

/-- `s.startsWith pat` (JS `s.indexOf(pat) === 0`), over the character lists. -/
def strStartsWith (s pat : String) : Bool := pat.data.isPrefixOf s.data

/-- `pat` is a suffix of `s` (an anchored `$` regex match), over the character
lists. -/
def strEndsWith (s pat : String) : Bool := pat.data.reverse.isPrefixOf s.data.reverse

/-- JS strict inequality `x !== ''` for a possibly-undefined string:
`undefined !== ''` is `true`. -/
def jsStrictNeEmptyStr : Option String → Bool
  | none => true
  | some s => s != ""

/-- Substring test on character lists (`String.indexOf(pat) !== -1`). -/
def charsContain (pat : List Char) : List Char → Bool
  | [] => pat.isEmpty
  | c :: rest => pat.isPrefixOf (c :: rest) || charsContain pat rest

/-- JS `s.indexOf(pat) !== -1`: `pat` occurs somewhere in `s`. -/
def strContains (s pat : String) : Bool := charsContain pat.data s.data

/-- The regex `/\.gif$/` (case-sensitive, anchored suffix). -/
def gifTest (s : String) : Bool := strEndsWith s ".gif"

/-- The regex `/\.(gif|xbs)$/`. -/
def gifXbsTest (s : String) : Bool := strEndsWith s ".gif" || strEndsWith s ".xbs"

/-- The regex `/^(rtsp|rtmp):\/\//`. -/
def rtspRtmpTest (s : String) : Bool := strStartsWith s "rtsp://" || strStartsWith s "rtmp://"

/-- The reserved microphone-device GUID literal from item.ts lines 415 and 419. -/
def audioDeviceGuid : String := "\x7b33D9A762-90C8-11D0-BD43-00A0C911CE86\x7d"

/-- A property bag handed to the `Source` constructor: an opaque JS object
mapping string keys to string values (the attributes of the host's XML item
description). -/
abbrev Props := List (String × String)

/-- JS property read `props[key]` on the bag: the first binding of `key`, or
`undefined` when the key is absent. -/
def propGet (props : Props) (key : String) : Option String :=
  match props with
  | [] => none
  | (k, v) :: rest => if k = key then some v else propGet rest key

/-- A constructed `Source` / `Item` instance.  The constructor of `Source`
(source.ts lines 30-44) assigns exactly these own properties; everything else
on such an object (class and mixin methods) lives on the prototype and none of
it is named `item`, `type` or `FilePlaylist`. -/
structure SourceObj where
  _name : Option String
  _cname : Option String
  _id : Option String
  _srcId : Option String
  _sceneId : Option String
  _value : Option String
  _keepLoaded : Option String
  _type : Option Int
  _xmlparams : Props
deriving DecidableEq

/-- The `Source` constructor (source.ts lines 30-44): copies selected bag keys
into own fields, converts `props['type']` with `Number`, and retains the whole
bag as `_xmlparams`. -/
def mkSource (props : Props) : SourceObj :=
  { _name := propGet props "name"
    _cname := propGet props "cname"
    _id := propGet props "id"
    _srcId := propGet props "srcid"
    _sceneId := propGet props "sceneId"
    _value := propGet props "value"
    _keepLoaded := propGet props "keeploaded"
    _type := jsNumber (propGet props "type")
    _xmlparams := props }

/-- The string key under which `uniqueObj[items[i]['_srcId']] = items[i]`
stores an item (item.ts line 379): JS coerces the property key with
`ToPropertyKey`, so an undefined `_srcId` becomes the key "undefined". -/
def SourceObj.srcKey (s : SourceObj) : String := jsToString s._srcId

/-- Modelled from the spec: a bracket read `source[key]` for a key the
`Source` constructor never assigns (`'item'`, `'type'`, `'FilePlaylist'` — the
bag values live inside `_xmlparams`, not on the instance).  The prototype
members contributed by the mixin modules outside src/ are, per spec.md
sections 4.3 and 6, capability method bundles only, so no prototype member
shadows these keys either and the read evaluates to `undefined`. -/
def SourceObj.missingProp (_src : SourceObj) (_key : String) : Option String := none

namespace ItemTypes

/-- item.ts line 32. -/
def UNDEFINED : Int := 0

/-- item.ts line 33. -/
def FILE : Int := 1

/-- item.ts line 34. -/
def LIVE : Int := 2

/-- item.ts line 35. -/
def TEXT : Int := 3

/-- item.ts line 36. -/
def BITMAP : Int := 4

/-- item.ts line 37. -/
def SCREEN : Int := 5

/-- item.ts line 38. -/
def FLASHFILE : Int := 6

/-- item.ts line 39. -/
def GAMESOURCE : Int := 7

/-- item.ts line 40. -/
def HTML : Int := 8

end ItemTypes

/-- Concrete source subtype produced by the classification chain of
`Item.getSource` (item.ts lines 390-426).  Each branch constructs the
corresponding class with `params = source['_xmlparams']`; the tag abstracts the
constructed object. -/
inductive SourceKind where
  | gameSource
  | videoPlaylistSource
  | htmlSource
  | screenSource
  | imageSource
  | mediaSource
  | cameraSource
  | audioSource
  | flashSource
  | genericSource
deriving DecidableEq

/-- The video-playlist condition of item.ts lines 397-399:
`(type === HTML || type === FILE) && source['_name'].indexOf('Video Playlist') === 0
&& source['FilePlaylist'] !== ''`, with JS short-circuiting.  Evaluating
`.indexOf` on an undefined `_name` throws (`none`).  `source['FilePlaylist']`
is a bracket read of a key the constructor never assigns. -/
def vpCond (source : SourceObj) (type_ : Option Int) : Option Bool :=
  if type_ == some ItemTypes.HTML || type_ == some ItemTypes.FILE then
    match source._name with
    | none => none
    | some nm =>
        some (strStartsWith nm "Video Playlist"
          && jsStrictNeEmptyStr (source.missingProp "FilePlaylist"))
  else some false

/-- The camera condition of item.ts lines 413-415:
`Number(source['type']) === ItemTypes.LIVE && source['item'].indexOf(GUID) === -1`.
Both `source['type']` and `source['item']` are bracket reads of keys the
constructor never assigns, so the left conjunct compares `NaN` and the
(short-circuited) right conjunct would throw. -/
def cameraCond (source : SourceObj) : Option Bool :=
  if jsNumber (source.missingProp "type") == some ItemTypes.LIVE then
    match source.missingProp "item" with
    | none => none
    | some it => some (!(strContains it audioDeviceGuid))
  else some false

/-- The audio condition of item.ts lines 417-419:
`Number(source['type']) === ItemTypes.LIVE && source['item'].indexOf(GUID) !== -1`. -/
def audioCond (source : SourceObj) : Option Bool :=
  if jsNumber (source.missingProp "type") == some ItemTypes.LIVE then
    match source.missingProp "item" with
    | none => none
    | some it => some (strContains it audioDeviceGuid)
  else some false

/-- The classification chain of `Item.getSource` (item.ts lines 390-426),
branch for branch.  `let type = Number(source['_type'])` re-converts the
already numeric `_type` field, which is the identity on it.  `none` is a thrown
`TypeError` inside the `typePromise` executor (which rejects that promise). -/
def classifySource (source : SourceObj) : Option SourceKind :=
  let type_ := source._type
  if type_ == some ItemTypes.GAMESOURCE then
    some SourceKind.gameSource
  else
    match vpCond source type_ with
    | none => none
    | some true => some SourceKind.videoPlaylistSource
    | some false =>
      if type_ == some ItemTypes.HTML then some SourceKind.htmlSource
      else if type_ == some ItemTypes.SCREEN then some SourceKind.screenSource
      else if type_ == some ItemTypes.BITMAP
          || (type_ == some ItemTypes.FILE
            && gifTest (jsToString (source.missingProp "item"))) then
        some SourceKind.imageSource
      else if type_ == some ItemTypes.FILE
          && !(gifXbsTest (jsToString (source.missingProp "item")))
          && !(rtspRtmpTest (jsToString (source.missingProp "item"))) then
        some SourceKind.mediaSource
      else
        match cameraCond source with
        | none => none
        | some true => some SourceKind.cameraSource
        | some false =>
          match audioCond source with
          | none => none
          | some true => some SourceKind.audioSource
          | some false =>
            if type_ == some ItemTypes.FLASHFILE then some SourceKind.flashSource
            else some SourceKind.genericSource

/-
Deduplication of `Item.getSource` (item.ts lines 375-388): the loop
`uniqueObj[items[i]['_srcId']] = items[i]` builds a plain JS object keyed by
the coerced `_srcId`, and `for (var j in uniqueObj) uniqueSource.push(...)`
then collects the values.  The object is modelled as an association list in
which assigning an existing key replaces its value in place and a new key is
appended; for string keys that are not array indices — source ids are opaque
brace-wrapped GUID strings — ECMAScript own-property enumeration order is
exactly this insertion order.
-/

/-- JS property assignment `obj[k] = v` on a string-keyed object: replace in
place when `k` is present, append when it is new. -/
def jsObjSet (m : List (String × SourceObj)) (k : String) (v : SourceObj) :
    List (String × SourceObj) :=
  match m with
  | [] => [(k, v)]
  | (k', v') :: rest => if k' = k then (k, v) :: rest else (k', v') :: jsObjSet rest k v

/-- The `uniqueObj` built by item.ts lines 376-382: one `uniqueObj[srcKey] = item`
assignment per item, in list order. -/
def buildUniqueObj (items : List SourceObj) : List (String × SourceObj) :=
  items.foldl (fun m it => jsObjSet m it.srcKey it) []

/-- The `uniqueSource` array of item.ts lines 384-388: the values of
`uniqueObj` in own-property enumeration order. -/
def dedupBySrcId (items : List SourceObj) : List SourceObj :=
  (buildUniqueObj items).map Prod.snd

/-- One step of first-occurrence key accumulation: append `k` if unseen. -/
def insStep (acc : List String) (k : String) : List String :=
  if k ∈ acc then acc else acc ++ [k]

/-- The distinct keys of a list, in order of first occurrence. -/
def firstOccKeys (l : List String) : List String := l.foldl insStep []

/-- First-defined choice between two optional values. -/
def optOr (a b : Option SourceObj) : Option SourceObj :=
  match a with
  | some v => some v
  | none => b

/-- The last item of the list whose dedup key is `k`, if any. -/
def lastWithKey : List SourceObj → String → Option SourceObj
  | [], _ => none
  | it :: rest, k =>
      optOr (lastWithKey rest k) (if it.srcKey = k then some it else none)

/-- Association-list lookup (first binding of `k`). -/
def lookupA : List (String × SourceObj) → String → Option SourceObj
  | [], _ => none
  | (k', v) :: rest, k => if k' = k then some v else lookupA rest k

/-
Host model.  `Env` is the HostContext collaborator (spec.md section 2: three
mutually exclusive execution contexts); `cmpMin` and `cmpGlobalsrc` are the
VersionOracle answers `versionCompare(getVersion()).is` against `minVersion`
and `globalsrcMinVersion`; `getProp` is the PropertyChannel read (total: a
transport failure is out of scope per spec.md section 7); `searchItemsById` is
`Scene.searchItemsById`, with `none` for a `NotFound` rejection; `baseId` is
`iItem.getBaseId()`.  Every operation returns its settled outcome together
with the ordered trace of host calls it issued.
-/

/-- Modelled from the spec: the three mutually exclusive execution contexts
reported by the HostContext collaborator (`Environment`, outside src/). -/
inductive Env where
  | extensionCtx
  | sourcePlugin
  | sourceConfig
deriving DecidableEq

/-- One host interaction, as issued by the operations under verification. -/
inductive HostCall where
  | getProp (key : String) (slot : Option String)
  | setProp (key : String) (value : String) (slot : Option String)
  | searchScene (id : String)
  | getSceneNumber (num : Int)
  | callFunc (fn : String) (arg : String)
deriving DecidableEq

/-- Settled outcome of an enumeration promise: resolved with items, rejected
with an `Error` message, or never settled (an unhandled inner rejection). -/
inductive EnumResult where
  | ok (items : List SourceObj)
  | err (msg : String)
  | hang
deriving DecidableEq

/-- Settled outcome of `Item.getSource`. -/
inductive GetSourceResult where
  | ok (kinds : List SourceKind)
  | err (msg : String)
  | hang
deriving DecidableEq

/-- Settled outcome of `Item.duplicate` (it resolves with the item itself). -/
inductive DupResult where
  | ok
  | err (msg : String)
  | hang
deriving DecidableEq

/-- Modelled from the spec: the collaborator interfaces the operations consume
(spec.md sections 2, 6), bundled as one abstract host. -/
structure Host where
  env : Env
  cmpMin : Ordering
  cmpGlobalsrc : Ordering
  getProp : String → Option String → String
  searchItemsById : String → Option SourceObj
  baseId : String

/-- Splitting a character list at every `,`. -/
def splitCommaChars : List Char → List (List Char)
  | [] => [[]]
  | c :: rest =>
      let r := splitCommaChars rest
      if c = ',' then [] :: r
      else
        match r with
        | [] => [[c]]
        | w :: ws => (c :: w) :: ws

/-- JS `itemlist.split(',')`: in particular `''.split(',')` is `['']`. -/
def jsSplitComma (s : String) : List String :=
  (splitCommaChars s.data).map (fun cs => String.mk cs)

/-- `Item#getItemList` (item.ts lines 230-261).  Below `minVersion` it searches
the scene tree for the item's own id (no catch: a `NotFound` rejection leaves
the promise unsettled).  Otherwise it reads the `itemlist` property scoped to
the item, splits on `,`, searches each id with a per-id catch resolving `null`,
and filters the nulls out. -/
def item_getItemList (h : Host) (selfId : String) : EnumResult × List HostCall :=
  if h.cmpMin = Ordering.lt then
    match h.searchItemsById selfId with
    | some it => (EnumResult.ok [it], [HostCall.searchScene selfId])
    | none => (EnumResult.hang, [HostCall.searchScene selfId])
  else
    let ids := jsSplitComma (h.getProp "itemlist" (some selfId))
    (EnumResult.ok (ids.filterMap h.searchItemsById),
      HostCall.getProp "itemlist" (some selfId) :: ids.map HostCall.searchScene)

/-- `Source.getItemList` (source.ts lines 112-145).  The extension context is
rejected first; below `minVersion` the base id is searched directly; otherwise,
in the source-plugin or source-config context, the unscoped `itemlist` property
is read and each id searched with the same per-id catch-and-filter. -/
def source_getItemList (h : Host) : EnumResult × List HostCall :=
  if h.env = Env.extensionCtx then
    (EnumResult.err "Extensions do not have sources associated with them.", [])
  else if h.cmpMin = Ordering.lt then
    match h.searchItemsById h.baseId with
    | some it => (EnumResult.ok [it], [HostCall.searchScene h.baseId])
    | none => (EnumResult.hang, [HostCall.searchScene h.baseId])
  else if h.env = Env.sourcePlugin ∨ h.env = Env.sourceConfig then
    let ids := jsSplitComma (h.getProp "itemlist" none)
    (EnumResult.ok (ids.filterMap h.searchItemsById),
      HostCall.getProp "itemlist" none :: ids.map HostCall.searchScene)
  else (EnumResult.hang, [])

/-- `Source.getCurrentSource` (source.ts lines 67-94).  Resolves with the first
item of `Source.getItemList` when the version is strictly greater than
`minVersion`, rejects when that list is empty, and falls back to a direct base
id search otherwise; the extension context is rejected first. -/
def source_getCurrentSource (h : Host) : EnumResult × List HostCall :=
  if h.env = Env.extensionCtx then
    (EnumResult.err "Extensions do not have sources associated with them.", [])
  else if (h.env = Env.sourcePlugin ∨ h.env = Env.sourceConfig)
      ∧ h.cmpMin = Ordering.gt then
    match source_getItemList h with
    | (EnumResult.ok [], tr) => (EnumResult.err "Cannot get item list", tr)
    | (EnumResult.ok (it :: _), tr) => (EnumResult.ok [it], tr)
    | (EnumResult.err _, tr) => (EnumResult.hang, tr)
    | (EnumResult.hang, tr) => (EnumResult.hang, tr)
  else if h.env = Env.sourcePlugin ∨ h.env = Env.sourceConfig then
    match h.searchItemsById h.baseId with
    | some it => (EnumResult.ok [it], [HostCall.searchScene h.baseId])
    | none => (EnumResult.hang, [HostCall.searchScene h.baseId])
  else (EnumResult.hang, [])

/-- `Item.getSource` (item.ts lines 360-441): reject in the extension context;
otherwise enumerate the linked items (the `Item.getItemList()` call, applied to
the plugin's context item id), deduplicate by `_srcId`, and classify each
unique record.  A classification `TypeError` rejects one `typePromise`, which
leaves the unhandled `Promise.all` — and hence the outer promise — unsettled. -/
def item_getSource (h : Host) (selfId : String) : GetSourceResult × List HostCall :=
  if h.env = Env.extensionCtx then
    (GetSourceResult.err "Does not work here!", [])
  else if h.env = Env.sourcePlugin ∨ h.env = Env.sourceConfig then
    match item_getItemList h selfId with
    | (EnumResult.ok items, tr) =>
        match (dedupBySrcId items).mapM classifySource with
        | some kinds => (GetSourceResult.ok kinds, tr)
        | none => (GetSourceResult.hang, tr)
    | (EnumResult.err _, tr) => (GetSourceResult.hang, tr)
    | (EnumResult.hang, tr) => (GetSourceResult.hang, tr)
  else (GetSourceResult.hang, [])

/-- A value passed as `options.scene` to `duplicate`: either an actual `Scene`
instance (identified by the number its `getSceneNumber()` resolves to) or any
other value, which fails the `instanceof Scene` test. -/
inductive SceneRef where
  | scene (num : Int)
  | notScene
deriving DecidableEq

/-- The `options` object of `Item.duplicate`; either field may be absent
(`undefined`). -/
structure DupOptions where
  linked : Option Bool
  scene : Option SceneRef
deriving DecidableEq

/-- `Item.duplicate` (item.ts lines 283-335).  Below `globalsrcMinVersion` the
legacy `additem` command is issued.  Otherwise, when options are present, a
truthy `linked` first fires the un-awaited `prop:keeploaded` write; then the
branch on which of `scene` / `linked` were supplied validates
`options.scene instanceof Scene`, resolves the scene number, and issues the
`link:<0|1>|s:<sceneId>|additem` command — or rejects with
`Error('Invalid parameters')` when the `instanceof` test fails. -/
def item_duplicate (h : Host) (selfId : String) (selfSceneId : String)
    (xml : String) (options : Option DupOptions) : DupResult × List HostCall :=
  if h.cmpGlobalsrc = Ordering.lt then
    (DupResult.ok, [HostCall.callFunc "additem" xml])
  else
    match options with
    | some opts =>
      let pre : List HostCall :=
        if opts.linked = some true then
          [HostCall.setProp "prop:keeploaded" "1" (some selfId)]
        else []
      if opts.scene.isSome && opts.linked.isSome then
        match opts.scene with
        | some (SceneRef.scene num) =>
            (DupResult.ok, pre ++ [HostCall.getSceneNumber num,
              HostCall.callFunc
                ("link:" ++ (if opts.linked = some true then "1" else "0")
                  ++ "|s:" ++ toString num ++ "|additem") xml])
        | some SceneRef.notScene => (DupResult.err "Invalid parameters", pre)
        | none => (DupResult.err "Invalid parameters", pre)
      else if opts.linked.isNone then
        match opts.scene with
        | some (SceneRef.scene num) =>
            (DupResult.ok, pre ++ [HostCall.getSceneNumber num,
              HostCall.callFunc ("link:0|s:" ++ toString num ++ "|additem") xml])
        | _ => (DupResult.err "Invalid parameters", pre)
      else if opts.scene.isNone then
        (DupResult.ok, pre ++ [HostCall.callFunc
          ("link:" ++ (if opts.linked = some true then "1" else "0")
            ++ "|s:" ++ selfSceneId ++ "|additem") xml])
      else (DupResult.hang, pre)
    | none => (DupResult.ok, [HostCall.callFunc "link:0|additem" xml])

/-
Lemmas about the deduplication object.
-/

/-- Assigning into the object rewrites its key list by `insStep`: an existing
key keeps its position, a new key is appended. -/
theorem jsObjSet_map_fst (m : List (String × SourceObj)) (k : String) (v : SourceObj) :
    (jsObjSet m k v).map Prod.fst = insStep (m.map Prod.fst) k := by
  induction m with
  | nil => simp [jsObjSet, insStep]
  | cons p rest ih =>
    obtain ⟨k', v'⟩ := p
    by_cases hk : k' = k
    · subst hk
      simp [jsObjSet, insStep]
    · have hne : ¬ k = k' := fun h => hk h.symm
      simp only [jsObjSet, if_neg hk, List.map_cons, ih]
      unfold insStep
      by_cases hmem : k ∈ List.map Prod.fst rest
      · rw [if_pos hmem, if_pos (by simp [List.mem_cons, hmem])]
      · rw [if_neg hmem, if_neg (by simp [List.mem_cons, hne, hmem])]
        simp

/-- Assignment updates lookup pointwise. -/
theorem lookupA_jsObjSet (m : List (String × SourceObj)) (k : String) (v : SourceObj)
    (k' : String) :
    lookupA (jsObjSet m k v) k' = if k = k' then some v else lookupA m k' := by
  induction m with
  | nil => simp [jsObjSet, lookupA]
  | cons p rest ih =>
    obtain ⟨k₀, v₀⟩ := p
    by_cases h0 : k₀ = k
    · subst h0
      by_cases hkk : k₀ = k'
      · subst hkk
        simp [jsObjSet, lookupA]
      · simp [jsObjSet, lookupA, hkk]
    · by_cases hkk : k₀ = k'
      · subst hkk
        have hne : ¬ k = k₀ := fun h => h0 h.symm
        simp [jsObjSet, h0, lookupA, hne]
      · simp [jsObjSet, h0, lookupA, hkk, ih]

/-- The key list of the folded object is the first-occurrence accumulation of
the items' dedup keys. -/
theorem foldl_jsObjSet_map_fst (items : List SourceObj) (m : List (String × SourceObj)) :
    ((items.foldl (fun acc it => jsObjSet acc it.srcKey it) m).map Prod.fst)
      = (items.map SourceObj.srcKey).foldl insStep (m.map Prod.fst) := by
  induction items generalizing m with
  | nil => rfl
  | cons it rest ih =>
      simp only [List.foldl_cons, List.map_cons]
      rw [ih, jsObjSet_map_fst]

/-- Looking up the folded object finds the last item with that key, falling
back to the initial object. -/
theorem lookupA_foldl_jsObjSet (items : List SourceObj) (m : List (String × SourceObj))
    (k : String) :
    lookupA (items.foldl (fun acc it => jsObjSet acc it.srcKey it) m) k
      = optOr (lastWithKey items k) (lookupA m k) := by
  induction items generalizing m with
  | nil => simp [lastWithKey, optOr]
  | cons it rest ih =>
      simp only [List.foldl_cons, lastWithKey]
      rw [ih, lookupA_jsObjSet]
      cases hrest : lastWithKey rest k with
      | some v => simp [optOr]
      | none =>
          simp only [optOr]
          by_cases hs : it.srcKey = k
          · simp [hs]
          · simp [hs]

/-- Every binding of the object after an assignment was already present or is
the assigned pair. -/
theorem mem_jsObjSet (m : List (String × SourceObj)) (k : String) (v : SourceObj)
    (p : String × SourceObj) (hp : p ∈ jsObjSet m k v) : p ∈ m ∨ p = (k, v) := by
  induction m with
  | nil =>
      right
      simpa [jsObjSet] using hp
  | cons q rest ih =>
      obtain ⟨k₀, v₀⟩ := q
      by_cases h0 : k₀ = k
      · subst h0
        rw [jsObjSet, if_pos rfl] at hp
        rcases List.mem_cons.mp hp with h | h
        · right; exact h
        · left; exact List.mem_cons_of_mem _ h
      · rw [jsObjSet, if_neg h0] at hp
        rcases List.mem_cons.mp hp with h | h
        · left
          rw [h]
          exact List.mem_cons_self _ _
        · rcases ih h with h' | h'
          · left; exact List.mem_cons_of_mem _ h'
          · right; exact h'

/-- Every binding of the folded object stores an item under its own dedup key. -/
theorem foldl_srcKey_fst (items : List SourceObj) (m : List (String × SourceObj))
    (hm : ∀ p ∈ m, (Prod.snd p).srcKey = p.1) :
    ∀ p ∈ items.foldl (fun acc it => jsObjSet acc it.srcKey it) m,
      (Prod.snd p).srcKey = p.1 := by
  induction items generalizing m with
  | nil => simpa using hm
  | cons it rest ih =>
      simp only [List.foldl_cons]
      refine ih _ ?_
      intro p hp
      rcases mem_jsObjSet _ _ _ _ hp with h | h
      · exact hm p h
      · rw [h]

/-- First-occurrence accumulation preserves key-list distinctness. -/
theorem foldl_insStep_nodup (l : List String) (acc : List String) (h : acc.Nodup) :
    (l.foldl insStep acc).Nodup := by
  induction l generalizing acc with
  | nil => simpa using h
  | cons k rest ih =>
      simp only [List.foldl_cons]
      apply ih
      unfold insStep
      by_cases hk : k ∈ acc
      · simpa [hk] using h
      · rw [if_neg hk]
        refine List.Nodup.append h (List.nodup_singleton k) ?_
        intro x hx hx'
        rw [List.mem_singleton] at hx'
        subst hx'
        exact hk hx

/-- Membership in the first-occurrence accumulation. -/
theorem mem_foldl_insStep (l : List String) (acc : List String) (x : String) :
    x ∈ l.foldl insStep acc ↔ x ∈ acc ∨ x ∈ l := by
  induction l generalizing acc with
  | nil => simp
  | cons k rest ih =>
      simp only [List.foldl_cons, ih, List.mem_cons]
      unfold insStep
      by_cases hk : k ∈ acc
      · rw [if_pos hk]
        constructor
        · rintro (h | h)
          · exact Or.inl h
          · exact Or.inr (Or.inr h)
        · rintro (h | h | h)
          · exact Or.inl h
          · subst h; exact Or.inl hk
          · exact Or.inr h
      · rw [if_neg hk]
        simp only [List.mem_append, List.mem_singleton]
        constructor
        · rintro ((h | h) | h)
          · exact Or.inl h
          · exact Or.inr (Or.inl h)
          · exact Or.inr (Or.inr h)
        · rintro (h | h | h)
          · exact Or.inl (Or.inl h)
          · exact Or.inl (Or.inr h)
          · exact Or.inr h

/-- With distinct keys, a stored binding is what lookup finds. -/
theorem lookupA_eq_some_of_mem (m : List (String × SourceObj)) (k : String) (v : SourceObj)
    (hmem : (k, v) ∈ m) (hnd : (m.map Prod.fst).Nodup) : lookupA m k = some v := by
  induction m with
  | nil => simp at hmem
  | cons p rest ih =>
      obtain ⟨k₀, v₀⟩ := p
      simp only [List.map_cons, List.nodup_cons] at hnd
      rcases List.mem_cons.mp hmem with h | h
      · rw [Prod.mk.injEq] at h
        obtain ⟨hk, hv⟩ := h
        subst hk
        subst hv
        simp [lookupA]
      · have hk0 : ¬ k₀ = k := by
          intro he
          subst he
          exact hnd.1 (List.mem_map_of_mem Prod.fst h)
        rw [lookupA, if_neg hk0]
        exact ih h hnd.2

/-- The dedup keys of `Item.getSource`, in output order: the distinct source
ids in order of first occurrence in the resolved item list. -/
theorem dedup_map_srcKey (items : List SourceObj) :
    (dedupBySrcId items).map SourceObj.srcKey
      = firstOccKeys (items.map SourceObj.srcKey) := by
  have h1 : ∀ p ∈ items.foldl (fun acc it => jsObjSet acc it.srcKey it) [],
      (Prod.snd p).srcKey = p.1 :=
    foldl_srcKey_fst items [] (by simp)
  have h2 : ((buildUniqueObj items).map Prod.snd).map SourceObj.srcKey
      = (buildUniqueObj items).map Prod.fst := by
    rw [List.map_map]
    exact List.map_congr_left h1
  unfold dedupBySrcId
  rw [h2]
  unfold buildUniqueObj firstOccKeys
  exact foldl_jsObjSet_map_fst items []

/-- The key list of `uniqueObj` is duplicate-free. -/
theorem buildUniqueObj_fst_nodup (items : List SourceObj) :
    ((buildUniqueObj items).map Prod.fst).Nodup := by
  unfold buildUniqueObj
  rw [foldl_jsObjSet_map_fst]
  exact foldl_insStep_nodup _ [] List.nodup_nil

/-- C1: for every resolved item list — in particular one in which several
linked item ids share one `sourceId` — the deduplicated result of
`Item.getSource` (item.ts lines 375-388) contains exactly one record per
distinct coerced `_srcId`, regardless of how many linked items reference it. -/
theorem c1_dedup_unique_per_sourceId (items : List SourceObj) (s : String)
    (h : s ∈ items.map SourceObj.srcKey) :
    ((dedupBySrcId items).map SourceObj.srcKey).count s = 1 := by
  rw [dedup_map_srcKey]
  have hnd : (firstOccKeys (items.map SourceObj.srcKey)).Nodup :=
    foldl_insStep_nodup _ [] List.nodup_nil
  have hmem : s ∈ firstOccKeys (items.map SourceObj.srcKey) :=
    (mem_foldl_insStep _ [] s).mpr (Or.inr h)
  exact List.count_eq_one_of_mem hnd hmem

/-- C10: in the `Item.getSource` dedup (item.ts lines 375-388), when several
items share one `_srcId` the representative kept for that source id is the
*last* such item in resolved-list order (later `uniqueObj` assignments
overwrite earlier ones), while distinct source ids appear in the output in
order of their first occurrence in the resolved list. -/
theorem c10_last_occurrence_wins_first_occurrence_order (items : List SourceObj) :
    (dedupBySrcId items).map SourceObj.srcKey
      = firstOccKeys (items.map SourceObj.srcKey)
    ∧ ∀ src ∈ dedupBySrcId items, lastWithKey items src.srcKey = some src := by
  refine ⟨dedup_map_srcKey items, ?_⟩
  intro src hsrc
  unfold dedupBySrcId at hsrc
  rcases List.mem_map.mp hsrc with ⟨p, hpmem, hpsnd⟩
  obtain ⟨k, v⟩ := p
  have hv : v = src := hpsnd
  subst hv
  have hkey : v.srcKey = k := foldl_srcKey_fst items [] (by simp) (k, v) hpmem
  have hlook : lookupA (buildUniqueObj items) k = some v :=
    lookupA_eq_some_of_mem _ k v hpmem (buildUniqueObj_fst_nodup items)
  have hfold : lookupA (buildUniqueObj items) k
      = optOr (lastWithKey items k) (lookupA [] k) :=
    lookupA_foldl_jsObjSet items [] k
  rw [hfold] at hlook
  rw [hkey]
  cases hl : lastWithKey items k with
  | none =>
      rw [hl] at hlook
      simp [optOr, lookupA] at hlook
  | some v' =>
      rw [hl] at hlook
      simpa [optOr] using hlook

/-
Concrete fixtures: a resolved item list with linked items (shared source ids),
used to evaluate the enumeration and dedup theorems on explicit inputs.
-/

/-- A camera item. -/
def itemA1 : SourceObj :=
  mkSource [("id", "a1"), ("srcid", "src-A"), ("name", "camera one"), ("type", "2")]

/-- A second linked instance of the same source as `itemA1`. -/
def itemA2 : SourceObj :=
  mkSource [("id", "a2"), ("srcid", "src-A"), ("name", "camera one linked"), ("type", "2")]

/-- A media-file item with its own source. -/
def itemB1 : SourceObj :=
  mkSource [("id", "b1"), ("srcid", "src-B"), ("name", "file one"), ("type", "1"),
    ("item", "movie.mp4")]

/-- Three resolved items over two sources, the shared one occurring twice. -/
def dedupSample : List SourceObj := [itemA1, itemB1, itemA2]

/-- Witness for C10: on `dedupSample`, the record kept for the shared source id
is the *last* linked instance, obtained by applying the theorem at this list. -/
theorem c10_witness : lastWithKey dedupSample (SourceObj.srcKey itemA2) = some itemA2 :=
  (c10_last_occurrence_wins_first_occurrence_order dedupSample).2 itemA2 (by decide)

/-- Five linked instances of one source followed by an unrelated item. -/
def manyLinked : List SourceObj :=
  [mkSource [("id", "l1"), ("srcid", "src-A"), ("name", "n1"), ("type", "2")],
   mkSource [("id", "l2"), ("srcid", "src-A"), ("name", "n2"), ("type", "2")],
   mkSource [("id", "l3"), ("srcid", "src-A"), ("name", "n3"), ("type", "2")],
   mkSource [("id", "l4"), ("srcid", "src-A"), ("name", "n4"), ("type", "2")],
   mkSource [("id", "l5"), ("srcid", "src-A"), ("name", "n5"), ("type", "2")],
   itemB1]

/-- Witness for C1: with five item ids linked to source id "src-A", the
deduplicated result carries exactly one record for "src-A". -/
theorem c1_witness :
    ("src-A" ∈ manyLinked.map SourceObj.srcKey)
    ∧ ((dedupBySrcId manyLinked).map SourceObj.srcKey).count "src-A" = 1 :=
  ⟨by decide, c1_dedup_unique_per_sourceId manyLinked "src-A" (by decide)⟩

/-- C2: the claim states that a FILE record whose identity string ends in
".gif" in any letter case classifies as ImageSource, with a suffix (not
substring) match.  The code (item.ts lines 405-412) instead tests
`/\.gif$/` — case-sensitive — against `source['item']`, a property the
constructor never assigns, so the test runs on the string "undefined" and
never matches: every FILE record (not caught by the video-playlist rule)
classifies as MediaSource, including "clip.gif" and "clip.GIF".  The
".bak" half of the claim does hold, vacuously through the same fallthrough. -/
theorem c2_file_gif_classified_as_media :
    classifySource (mkSource [("type", "1"), ("name", "clip"), ("item", "clip.gif")])
      = some SourceKind.mediaSource
    ∧ classifySource (mkSource [("type", "1"), ("name", "clip"), ("item", "clip.GIF")])
      = some SourceKind.mediaSource
    ∧ classifySource (mkSource [("type", "1"), ("name", "clip"), ("item", "clip.gif.bak")])
      = some SourceKind.mediaSource := by
  exact ⟨by decide, by decide, by decide⟩

/-- C3: the claim states a LIVE record classifies as AudioSource when its
identity string contains the microphone GUID and as CameraSource otherwise.
The code (item.ts lines 413-420) guards both branches with
`Number(source['type']) === ItemTypes.LIVE`, but `source['type']` is a
property the constructor never assigns (the type lives in `_type`), so the
guard compares `NaN` and both branches are unreachable: every LIVE record
falls through to the generic Source. -/
theorem c3_live_sources_classified_generic :
    classifySource (mkSource [("type", "2"), ("name", "microphone"),
        ("item", "dev:" ++ audioDeviceGuid)]) = some SourceKind.genericSource
    ∧ classifySource (mkSource [("type", "2"), ("name", "webcam"),
        ("item", "dev:other-device")]) = some SourceKind.genericSource := by
  exact ⟨by decide, by decide⟩

/-- C4: the claim states an HTML/FILE record named "Video Playlist…"
classifies as VideoPlaylistSource if and only if a non-empty `FilePlaylist`
property is present, the empty/absent case falling through to HtmlSource.
The code (item.ts lines 397-400) reads `source['FilePlaylist']`, a property
the constructor never assigns (the bag value lives in `_xmlparams`), so the
`!== ''` check always sees `undefined` and succeeds: the name prefix alone
decides, and an HTML record with an empty — or absent — `FilePlaylist` still
classifies as VideoPlaylistSource. -/
theorem c4_video_playlist_ignores_fileplaylist :
    classifySource (mkSource [("type", "8"), ("name", "Video Playlist - My Show"),
        ("FilePlaylist", "")]) = some SourceKind.videoPlaylistSource
    ∧ classifySource (mkSource [("type", "8"), ("name", "Video Playlist - My Show")])
      = some SourceKind.videoPlaylistSource := by
  exact ⟨by decide, by decide⟩

/-- Dropping at least one element: a `filterMap` whose function fails on some
member of the list is strictly shorter than the list. -/
theorem length_filterMap_lt_of_none {α β : Type} (f : α → Option β) (l : List α)
    (h : ∃ i ∈ l, f i = none) : (l.filterMap f).length < l.length := by
  induction l with
  | nil => simp at h
  | cons a rest ih =>
      rcases h with ⟨i, hi, hfi⟩
      rcases List.mem_cons.mp hi with rfl | hmem
      · rw [List.filterMap_cons, hfi]
        calc (rest.filterMap f).length ≤ rest.length := List.length_filterMap_le f rest
          _ < (i :: rest).length := by simp
      · rw [List.filterMap_cons]
        cases hfa : f a with
        | none =>
            calc (rest.filterMap f).length < rest.length := ih ⟨i, hmem, hfi⟩
              _ ≤ (a :: rest).length := by simp [Nat.le_succ]
        | some b =>
            simpa using Nat.succ_lt_succ (ih ⟨i, hmem, hfi⟩)

/-- C5: under a host version strictly below the minimum enumeration-capable
version (`versionCompare(getVersion()).is.lessThan(minVersion)`), both
`Source.getItemList` (outside the extension context) and `Item#getItemList`
return a single-element sequence obtained from one direct scene-tree search
for the base / context item id — the full trace is that single search, so in
particular the `itemlist` property key is never read. -/
theorem c5_legacy_version_single_item_enumeration (h : Host) (selfId : String)
    (itB itS : SourceObj)
    (hver : h.cmpMin = Ordering.lt)
    (hctx : h.env ≠ Env.extensionCtx)
    (hbase : h.searchItemsById h.baseId = some itB)
    (hself : h.searchItemsById selfId = some itS) :
    source_getItemList h = (EnumResult.ok [itB], [HostCall.searchScene h.baseId])
    ∧ item_getItemList h selfId = (EnumResult.ok [itS], [HostCall.searchScene selfId]) := by
  constructor
  · unfold source_getItemList
    rw [if_neg hctx, if_pos hver, hbase]
  · unfold item_getItemList
    rw [if_pos hver, hself]

/-- A host below the enumeration threshold, in the source-plugin context,
whose scene search always finds `itemA1`. -/
def legacyHost : Host :=
  { env := Env.sourcePlugin
    cmpMin := Ordering.lt
    cmpGlobalsrc := Ordering.lt
    getProp := fun _ _ => ""
    searchItemsById := fun _ => some itemA1
    baseId := "base1" }

/-- Witness for C5 at a concrete legacy host. -/
theorem c5_witness :
    legacyHost.cmpMin = Ordering.lt
    ∧ source_getItemList legacyHost
        = (EnumResult.ok [itemA1], [HostCall.searchScene "base1"])
    ∧ item_getItemList legacyHost "it7"
        = (EnumResult.ok [itemA1], [HostCall.searchScene "it7"]) :=
  have hthm := c5_legacy_version_single_item_enumeration legacyHost "it7" itemA1 itemA1
    rfl (by decide) rfl rfl
  ⟨rfl, hthm.1, hthm.2⟩

/-- C6: when the `itemlist` path is taken and some per-id scene searches fail
(`NotFound`), enumeration still resolves — with exactly the items whose
search succeeded, in their original id-list order (`filterMap` keeps order) —
and the failing ids are dropped rather than propagated: the result list is
strictly shorter than the id list. -/
theorem c6_failed_resolutions_swallowed_in_order (h : Host) (selfId : String)
    (hver : h.cmpMin ≠ Ordering.lt)
    (hctx : h.env ≠ Env.extensionCtx)
    (henv : h.env = Env.sourcePlugin ∨ h.env = Env.sourceConfig)
    (hfail : ∃ i ∈ jsSplitComma (h.getProp "itemlist" none), h.searchItemsById i = none) :
    (source_getItemList h).1
      = EnumResult.ok
          ((jsSplitComma (h.getProp "itemlist" none)).filterMap h.searchItemsById)
    ∧ (item_getItemList h selfId).1
      = EnumResult.ok
          ((jsSplitComma (h.getProp "itemlist" (some selfId))).filterMap h.searchItemsById)
    ∧ ((jsSplitComma (h.getProp "itemlist" none)).filterMap h.searchItemsById).length
        < (jsSplitComma (h.getProp "itemlist" none)).length := by
  refine ⟨?_, ?_, length_filterMap_lt_of_none _ _ hfail⟩
  · unfold source_getItemList
    rw [if_neg hctx, if_neg hver, if_pos henv]
  · unfold item_getItemList
    rw [if_neg hver]

/-- A host above the enumeration threshold whose `itemlist` holds four ids, of
which "a3" fails to resolve. -/
def listHost : Host :=
  { env := Env.sourceConfig
    cmpMin := Ordering.gt
    cmpGlobalsrc := Ordering.gt
    getProp := fun key _ => if key = "itemlist" then "a1,a2,a3,a4" else ""
    searchItemsById := fun i =>
      if i = "a3" then none else some (mkSource [("id", i), ("srcid", "src-" ++ i)])
    baseId := "base1" }

/-- Witness for C6: 1 of 4 linked ids fails, the other 3 resolve in order. -/
theorem c6_witness :
    (source_getItemList listHost).1
      = EnumResult.ok
          ((jsSplitComma (listHost.getProp "itemlist" none)).filterMap listHost.searchItemsById)
    ∧ ((jsSplitComma (listHost.getProp "itemlist" none)).filterMap listHost.searchItemsById).length
        < (jsSplitComma (listHost.getProp "itemlist" none)).length :=
  have hthm := c6_failed_resolutions_swallowed_in_order listHost "a1"
    (by decide) (by decide) (Or.inr rfl) ⟨"a3", by decide, rfl⟩
  ⟨hthm.1, hthm.2.2⟩

/-- C7: in the extension context every enumeration operation —
`Source.getItemList`, `Source.getCurrentSource` and `Item.getSource` —
rejects immediately (the first two stating that extensions have no associated
sources, the third with `Error('Does not work here!')`), and its host-call
trace is empty: no item resolution of any kind is performed. -/
theorem c7_extension_context_rejected (h : Host) (selfId : String)
    (hctx : h.env = Env.extensionCtx) :
    source_getItemList h
      = (EnumResult.err "Extensions do not have sources associated with them.", [])
    ∧ source_getCurrentSource h
      = (EnumResult.err "Extensions do not have sources associated with them.", [])
    ∧ item_getSource h selfId = (GetSourceResult.err "Does not work here!", []) := by
  refine ⟨?_, ?_, ?_⟩
  · unfold source_getItemList
    rw [if_pos hctx]
  · unfold source_getCurrentSource
    rw [if_pos hctx]
  · unfold item_getSource
    rw [if_pos hctx]

/-- A host running in the extension context. -/
def extHost : Host :=
  { env := Env.extensionCtx
    cmpMin := Ordering.gt
    cmpGlobalsrc := Ordering.gt
    getProp := fun _ _ => ""
    searchItemsById := fun _ => some itemA1
    baseId := "base1" }

/-- Witness for C7 at a concrete extension-context host. -/
theorem c7_witness :
    source_getItemList extHost
      = (EnumResult.err "Extensions do not have sources associated with them.", [])
    ∧ source_getCurrentSource extHost
      = (EnumResult.err "Extensions do not have sources associated with them.", [])
    ∧ item_getSource extHost "it1" = (GetSourceResult.err "Does not work here!", []) :=
  c7_extension_context_rejected extHost "it1" rfl

/-- A host at the global-linked-source threshold or above, used for the
`duplicate` claims. -/
def dupHost : Host :=
  { env := Env.sourcePlugin
    cmpMin := Ordering.gt
    cmpGlobalsrc := Ordering.gt
    getProp := fun _ _ => ""
    searchItemsById := fun _ => none
    baseId := "base1" }

/-- C8 counterexample: `duplicate({linked: true, scene: invalidRef})` on a
host at/above the global-linked-source threshold rejects with
`Error('Invalid parameters')` — but its host-call trace is *not* empty: the
`prop:keeploaded` write at item.ts line 294 fires before the scene reference
is validated, contradicting the claim that no host call of any kind is made
for every combination of the other options including `linked: true`. -/
theorem c8_counterexample_keeploaded_written_on_invalid_scene :
    item_duplicate dupHost "id1" "0" "<item/>"
        (some { linked := some true, scene := some SceneRef.notScene })
      = (DupResult.err "Invalid parameters",
         [HostCall.setProp "prop:keeploaded" "1" (some "id1")]) := by
  decide

/-- C8 (amended): on a host at/above the global-linked-source threshold,
`duplicate` with a present-but-invalid scene reference rejects with
`Error('Invalid parameters')` and issues no `additem` command and no scene
resolution; the *only* host call that may precede the failure is the
`prop:keeploaded` write, issued exactly when `linked` is `true`. -/
theorem c8_invalid_scene_rejected_amended (h : Host) (selfId selfSceneId xml : String)
    (lk : Option Bool) (hver : h.cmpGlobalsrc ≠ Ordering.lt) :
    item_duplicate h selfId selfSceneId xml
        (some { linked := lk, scene := some SceneRef.notScene })
      = (DupResult.err "Invalid parameters",
         if lk = some true then [HostCall.setProp "prop:keeploaded" "1" (some selfId)]
         else []) := by
  unfold item_duplicate
  rw [if_neg hver]
  rcases lk with _ | b
  · simp
  · rcases b with _ | _ <;> simp

/-- Witness for C8's amended statement, with `linked: false` supplied. -/
theorem c8_witness :
    item_duplicate dupHost "id1" "0" "<item/>"
        (some { linked := some false, scene := some SceneRef.notScene })
      = (DupResult.err "Invalid parameters", []) := by
  have hthm := c8_invalid_scene_rejected_amended dupHost "id1" "0" "<item/>"
    (some false) (by decide)
  simpa using hthm

/-- C9: `duplicate({linked: true, scene: S})` with a valid scene on a host
at/above the global-linked-source threshold resolves, and its host-call trace
is exactly the `prop:keeploaded = '1'` write, then the scene-number
resolution, then the `link:1|s:<sceneId>|additem` command — so the `additem`
command is never issued without the keep-loaded write having been issued
first, which the final conjunct states for every decomposition of the trace
around the `additem` call. -/
theorem c9_keeploaded_precedes_additem (h : Host) (selfId selfSceneId xml : String)
    (num : Int) (hver : h.cmpGlobalsrc ≠ Ordering.lt) :
    (item_duplicate h selfId selfSceneId xml
        (some { linked := some true, scene := some (SceneRef.scene num) })).1 = DupResult.ok
    ∧ (item_duplicate h selfId selfSceneId xml
        (some { linked := some true, scene := some (SceneRef.scene num) })).2
      = [HostCall.setProp "prop:keeploaded" "1" (some selfId),
         HostCall.getSceneNumber num,
         HostCall.callFunc ("link:1|s:" ++ toString num ++ "|additem") xml]
    ∧ ∀ l₁ l₂, (item_duplicate h selfId selfSceneId xml
          (some { linked := some true, scene := some (SceneRef.scene num) })).2
        = l₁ ++ HostCall.callFunc ("link:1|s:" ++ toString num ++ "|additem") xml :: l₂ →
        HostCall.setProp "prop:keeploaded" "1" (some selfId) ∈ l₁ := by
  have htr : (item_duplicate h selfId selfSceneId xml
      (some { linked := some true, scene := some (SceneRef.scene num) })).2
      = [HostCall.setProp "prop:keeploaded" "1" (some selfId),
         HostCall.getSceneNumber num,
         HostCall.callFunc ("link:1|s:" ++ toString num ++ "|additem") xml] := by
    unfold item_duplicate
    rw [if_neg hver]
    simp
  refine ⟨?_, htr, ?_⟩
  · unfold item_duplicate
    rw [if_neg hver]
    simp
  · intro l₁ l₂ heq
    rw [htr] at heq
    rcases l₁ with _ | ⟨a, _ | ⟨b, l'⟩⟩
    · exfalso
      rw [List.nil_append] at heq
      injection heq with h1 _
      exact HostCall.noConfusion h1
    · exfalso
      rw [List.cons_append, List.nil_append] at heq
      injection heq with _ h2
      injection h2 with h3 _
      exact HostCall.noConfusion h3
    · rw [List.cons_append] at heq
      injection heq with h1 _
      rw [h1]
      exact List.mem_cons_self _ _

/-- Witness for C9 at a concrete host and scene number. -/
theorem c9_witness :
    (item_duplicate dupHost "id1" "0" "<item/>"
        (some { linked := some true, scene := some (SceneRef.scene 3) })).1 = DupResult.ok
    ∧ (item_duplicate dupHost "id1" "0" "<item/>"
        (some { linked := some true, scene := some (SceneRef.scene 3) })).2
      = [HostCall.setProp "prop:keeploaded" "1" (some "id1"),
         HostCall.getSceneNumber 3,
         HostCall.callFunc ("link:1|s:" ++ toString (3 : Int) ++ "|additem") "<item/>"] :=
  have hthm := c9_keeploaded_precedes_additem dupHost "id1" "0" "<item/>" 3 (by decide)
  ⟨hthm.1, hthm.2.1⟩
